import Mathlib

/-!
Verification development for the chessplaza repository.

The Python sources under `chessplaza/` are shallowly embedded below:
pure functions become Lean functions over `List Char`-backed strings,
the stateful session loop becomes explicit transition functions, and
fallible code returns `Option`/`Except`.  External collaborators
(the model runtime, python-chess, edge-tts/miniaudio) are abstracted
as oracle parameters, exactly as the specification treats them.
-/

/-! ## Python string primitives

Python `str` operations used by the sources, modelled over the
character list backing Lean's `String`.  Unicode-specific behaviour
(locale lowercasing, exotic whitespace) is idealised to the ASCII
behaviour, which is all the sources rely on.
-/

/-- Characters treated as whitespace by `str.strip()` (ASCII fragment). -/
def isPySpace (c : Char) : Bool :=
  c == ' ' || c == '\t' || c == '\n' || c == '\r' || c == '\x0b' || c == '\x0c'

/-- Python `str.strip()` on the backing character list. -/
def stripWsList (l : List Char) : List Char :=
  ((l.dropWhile isPySpace).reverse.dropWhile isPySpace).reverse

/-- Python `text.strip()`. -/
def pyStrip (s : String) : String := ⟨stripWsList s.data⟩

/-- Python `text.startswith(p)`. -/
def pyStartswith (s p : String) : Bool := p.data.isPrefixOf s.data

/-- Python `text.endswith(p)`. -/
def pyEndswith (s p : String) : Bool := p.data.reverse.isPrefixOf s.data.reverse

/-- Python slicing `text[n:]`. -/
def pyDropLeft (s : String) (n : Nat) : String := ⟨s.data.drop n⟩

/-- Python slicing `text[:-n]` (for `n ≥ 1`). -/
def pyDropRight (s : String) (n : Nat) : String := ⟨(s.data.reverse.drop n).reverse⟩

/-- Python `str.lower()` (ASCII model). -/
def pyLower (s : String) : String := ⟨s.data.map Char.toLower⟩

/-- Substring test on character lists: does `l` contain `pat` as a
contiguous run?  Models Python's `pat in l`. -/
def containsSub (pat : List Char) : List Char → Bool
  | [] => pat.isEmpty
  | c :: cs => pat.isPrefixOf (c :: cs) || containsSub pat cs

/-- Python `pat in s` (substring containment). -/
def pyIn (pat s : String) : Bool := containsSub pat.data s.data

/-- One fuel-indexed step of Python `str.replace(pat, repl)`:
replaces every non-overlapping occurrence of `pat`, scanning left to
right.  `pat` is assumed nonempty (true at every call site in the
sources); fuel is the length of the scanned list. -/
def pyReplaceAux (pat repl : List Char) : Nat → List Char → List Char
  | _, [] => []
  | 0, s => s
  | fuel + 1, c :: cs =>
    if pat.isPrefixOf (c :: cs) then
      repl ++ pyReplaceAux pat repl fuel (List.drop (pat.length - 1) cs)
    else
      c :: pyReplaceAux pat repl fuel cs

/-- Python `s.replace(pat, repl)` for nonempty `pat`. -/
def pyReplace (s pat repl : String) : String :=
  ⟨pyReplaceAux pat.data repl.data s.data.length s.data⟩

/-- Python `sep.join(items)`. -/
def pyJoin (sep : String) : List String → String
  | [] => ""
  | [s] => s
  | s :: rest => s ++ sep ++ pyJoin sep rest

/-! ## JSON values

Result type of Python's `json.loads`.  Numbers are modelled as exact
decimals `mantissa * 10 ^ exp10` (float rounding is not modelled; no
verified property depends on numeric values).  `json.loads` also
accepts the IEEE constants `NaN`, `Infinity` and `-Infinity`.
-/

inductive JVal where
  | jnull : JVal
  | jbool : Bool → JVal
  | jnum : Int → Int → JVal
  | jnan : JVal
  | jinf : Bool → JVal
  | jstr : String → JVal
  | jarr : List JVal → JVal
  | jobj : List (String × JVal) → JVal

/-- Python `x == "lit"` for a string literal `lit`: true exactly when
`x` is that string (Python equality between a string and a non-string
is `False`). -/
def JVal.isStr : JVal → String → Bool
  | .jstr t, s => t == s
  | _, _ => false

/-- Is the decoded value a JSON object (a Python `dict`)? -/
def JVal.isObj : JVal → Bool
  | .jobj _ => true
  | _ => false

/-- Python truthiness of a decoded JSON value (`bool(x)`). -/
def pyTruthy : JVal → Bool
  | .jnull => false
  | .jbool b => b
  | .jnum m _ => m != 0
  | .jnan => true
  | .jinf _ => true
  | .jstr s => !s.isEmpty
  | .jarr xs => !xs.isEmpty
  | .jobj kvs => !kvs.isEmpty

/-- Python `d.get(k, default)` on a decoded JSON object.  `json.loads`
keeps the last binding for duplicate keys, hence the reversed search. -/
def pyDictGet (kvs : List (String × JVal)) (k : String) (dflt : JVal) : JVal :=
  match kvs.reverse.find? (fun p => p.1 == k) with
  | some p => p.2
  | none => dflt

/-! ## `json.loads` (strict mode)

Recursive-descent model of CPython's strict JSON decoder: standard
whitespace between tokens, `true`/`false`/`null` plus the accepted
constants `NaN`/`Infinity`/`-Infinity`, the strict number grammar
(no leading zeros), strings with the standard escapes (a `\uXXXX`
escape outside the scalar range is idealised to `'\x00'`), and an
"extra data" check that the whole input is consumed.  Decode failure
(Python's `json.JSONDecodeError`) is `none`.
-/

/-- JSON token whitespace (`' '`, `'\t'`, `'\n'`, `'\r'`). -/
def isJsonWs (c : Char) : Bool :=
  c == ' ' || c == '\t' || c == '\n' || c == '\r'

/-- Hex digit value. -/
def hexVal (c : Char) : Option Nat :=
  if '0' ≤ c ∧ c ≤ '9' then some (c.toNat - '0'.toNat)
  else if 'a' ≤ c ∧ c ≤ 'f' then some (c.toNat - 'a'.toNat + 10)
  else if 'A' ≤ c ∧ c ≤ 'F' then some (c.toNat - 'A'.toNat + 10)
  else none

/-- Decode a JSON string body after the opening quote; returns the
decoded characters and the remainder after the closing quote. -/
def parseJStringBody : List Char → Option (List Char × List Char)
  | [] => none
  | '"' :: rest => some ([], rest)
  | '\\' :: 'u' :: a :: b :: c :: d :: rest => do
    let va ← hexVal a
    let vb ← hexVal b
    let vc ← hexVal c
    let vd ← hexVal d
    let code := ((va * 16 + vb) * 16 + vc) * 16 + vd
    let ch := if h : code.isValidChar then Char.ofNatAux code h else '\x00'
    let (tail, rem) ← parseJStringBody rest
    pure (ch :: tail, rem)
  | '\\' :: e :: rest => do
    let ch ←
      if e = '"' then some '"'
      else if e = '\\' then some '\\'
      else if e = '/' then some '/'
      else if e = 'b' then some '\x08'
      else if e = 'f' then some '\x0c'
      else if e = 'n' then some '\n'
      else if e = 'r' then some '\r'
      else if e = 't' then some '\t'
      else none
    let (tail, rem) ← parseJStringBody rest
    pure (ch :: tail, rem)
  | c :: rest =>
    if c.toNat < 0x20 then none
    else do
      let (tail, rem) ← parseJStringBody rest
      pure (c :: tail, rem)

/-- Take a maximal run of decimal digits. -/
def takeDigits (l : List Char) : List Char × List Char :=
  (l.takeWhile Char.isDigit, l.dropWhile Char.isDigit)

/-- Digits to a natural number. -/
def digitsToNat (ds : List Char) : Nat :=
  ds.foldl (fun acc c => acc * 10 + (c.toNat - '0'.toNat)) 0

/-- Strict JSON number token starting at the current position
(grammar `-?(0|[1-9][0-9]*)(\.[0-9]+)?([eE][+-]?[0-9]+)?`); returns
the value as (mantissa, decimal exponent) and the remainder. -/
def parseJNumber (l : List Char) : Option ((Int × Int) × List Char) :=
  let (neg, l1) := match l with
    | '-' :: rest => (true, rest)
    | _ => (false, l)
  match l1 with
  | [] => none
  | c :: _ =>
    if !c.isDigit then none
    else
      let (intDs, l2) :=
        if c = '0' then ([c], l1.drop 1)
        else takeDigits l1
      let (fracDs, l3) :=
        match l2 with
        | '.' :: l2' =>
          let (ds, rest) := takeDigits l2'
          if ds.isEmpty then ([], l2) else (ds, rest)
        | _ => ([], l2)
      let fracOk := match l2 with
        | '.' :: l2' => !(l2'.takeWhile Char.isDigit).isEmpty
        | _ => true
      if !fracOk then none
      else
        let (expVal, l4) :=
          match l3 with
          | e :: l3' =>
            if e = 'e' ∨ e = 'E' then
              let (esign, l3'') := match l3' with
                | '+' :: r => ((1 : Int), r)
                | '-' :: r => ((-1 : Int), r)
                | _ => ((1 : Int), l3')
              let (eds, rest) := takeDigits l3''
              if eds.isEmpty then (none, l3)
              else (some (esign * (digitsToNat eds : Int)), rest)
            else (none, l3)
          | [] => (none, l3)
        let mantNat : Nat := digitsToNat (intDs ++ fracDs)
        let mant : Int := if neg then -(mantNat : Int) else (mantNat : Int)
        let exp10 : Int := (match expVal with | some e => e | none => 0) - (fracDs.length : Int)
        some ((mant, exp10), l4)

mutual

/-- Parse one JSON value (fuel-indexed recursive descent). -/
def parseJValue : Nat → List Char → Option (JVal × List Char)
  | 0, _ => none
  | fuel + 1, cs =>
    let cs := cs.dropWhile isJsonWs
    match cs with
    | [] => none
    | c :: rest =>
      if c = '\x7b' then
        match rest.dropWhile isJsonWs with
        | '\x7d' :: rest' => some (.jobj [], rest')
        | _ => match parseJMembers fuel rest with
          | some (kvs, rest') => some (.jobj kvs, rest')
          | none => none
      else if c = '[' then
        match rest.dropWhile isJsonWs with
        | ']' :: rest' => some (.jarr [], rest')
        | _ => match parseJItems fuel rest with
          | some (xs, rest') => some (.jarr xs, rest')
          | none => none
      else if c = '"' then
        match parseJStringBody rest with
        | some (body, rest') => some (.jstr ⟨body⟩, rest')
        | none => none
      else if c = 't' then
        if ['r', 'u', 'e'].isPrefixOf rest then some (.jbool true, rest.drop 3) else none
      else if c = 'f' then
        if ['a', 'l', 's', 'e'].isPrefixOf rest then some (.jbool false, rest.drop 4) else none
      else if c = 'n' then
        if ['u', 'l', 'l'].isPrefixOf rest then some (.jnull, rest.drop 3) else none
      else if c = 'N' then
        if ['a', 'N'].isPrefixOf rest then some (.jnan, rest.drop 2) else none
      else if c = 'I' then
        if ['n', 'f', 'i', 'n', 'i', 't', 'y'].isPrefixOf rest then some (.jinf false, rest.drop 7) else none
      else if c = '-' ∧ ['I', 'n', 'f', 'i', 'n', 'i', 't', 'y'].isPrefixOf rest then
        some (.jinf true, rest.drop 8)
      else
        match parseJNumber (c :: rest) with
        | some ((m, e), rest') => some (.jnum m e, rest')
        | none => none

/-- Parse the members of a JSON object after `{` (nonempty case). -/
def parseJMembers : Nat → List Char → Option (List (String × JVal) × List Char)
  | 0, _ => none
  | fuel + 1, cs =>
    match cs.dropWhile isJsonWs with
    | '"' :: rest =>
      match parseJStringBody rest with
      | none => none
      | some (key, rest1) =>
        match rest1.dropWhile isJsonWs with
        | ':' :: rest2 =>
          match parseJValue fuel rest2 with
          | none => none
          | some (v, rest3) =>
            match rest3.dropWhile isJsonWs with
            | ',' :: rest4 =>
              match parseJMembers fuel rest4 with
              | some (kvs, rest5) => some ((⟨key⟩, v) :: kvs, rest5)
              | none => none
            | '\x7d' :: rest4 => some ([(⟨key⟩, v)], rest4)
            | _ => none
        | _ => none
    | _ => none

/-- Parse the items of a JSON array after `[` (nonempty case). -/
def parseJItems : Nat → List Char → Option (List JVal × List Char)
  | 0, _ => none
  | fuel + 1, cs =>
    match parseJValue fuel cs with
    | none => none
    | some (v, rest) =>
      match rest.dropWhile isJsonWs with
      | ',' :: rest1 =>
        match parseJItems fuel rest1 with
        | some (xs, rest2) => some (v :: xs, rest2)
        | none => none
      | ']' :: rest1 => some ([v], rest1)
      | _ => none

end

/-- Python `json.loads` in strict mode: parse one value, then require
only whitespace to remain ("Extra data" otherwise).  `none` models a
raised `json.JSONDecodeError`. -/
def pyJsonLoads (s : String) : Option JVal :=
  match parseJValue (s.data.length + 4) s.data with
  | some (v, rest) => if (rest.dropWhile isJsonWs).isEmpty then some v else none
  | none => none

/-! ## `chessplaza/hustler.py` — character registry -/

/-- Convert ELO to Skill Level (0-20 scale): `max(0, min(20, (elo - 1000) // 90))`. -/
def _elo_to_skill_level (elo : Int) : Int :=
  max 0 (min 20 ((elo - 1000).fdiv 90))

/-- A chess hustler with personality (dataclass `Hustler`). -/
structure Hustler where
  id : String
  name : String
  prompt : String
  voice : String
  elo : Int
  engine_options : List (String × String)
deriving DecidableEq, Repr

/-- `_register`: insert into the `HUSTLERS` dict, keyed by `hustler.id`
(Python dict assignment: overwrite in place if present, append otherwise). -/
def _register (reg : List (String × Hustler)) (h : Hustler) : List (String × Hustler) :=
  if reg.any (fun p => p.1 == h.id) then
    reg.map (fun p => if p.1 == h.id then (p.1, h) else p)
  else
    reg ++ [(h.id, h)]

/-- Python `key in HUSTLERS`. -/
def hustlersContains (reg : List (String × Hustler)) (k : String) : Bool :=
  reg.any (fun p => p.1 == k)

/-- Python `HUSTLERS[key]` / `HUSTLERS.get(key)` (keys are unique by
construction of `_register`). -/
def hustlersGet (reg : List (String × Hustler)) (k : String) : Option Hustler :=
  (reg.find? (fun p => p.1 == k)).map (fun p => p.2)

def FAST_EDDIE : Hustler :=
  { id := "eddie"
    name := "Fast Eddie"
    voice := "en-US-GuyNeural"
    elo := 1800
    engine_options :=
      [ -- Stockfish
        ("UCI_LimitStrength", "true")
      , ("UCI_Elo", "1800")
      , ("Slow Mover", "70")  -- Plays fast, doesn't overthink
        -- Lc0
      , ("Temperature", "0.3")  -- Some street flair
        -- Fallback
      , ("Skill Level", toString (_elo_to_skill_level 1800))
      ]
    prompt := "Fast Eddie is a 60+ year old chess hustler at a park.

Personality:
- Cocky and confident, but not mean-spirited
- Quick-witted, loves wordplay and trash talk
- Speaks in short, punchy sentences
- NYC-style street slang, casual
- Always sizing up opponents and looking for a game
- Has seen it all - tourists, hustlers, grandmasters in disguise
- Respects good players, roasts bad ones (playfully)
- References chess moves, famous games, drops hints about past victories
- Never breaks character
- ELO about 1800, but he never mentions it

Keep responses brief (2-4 sentences) unless asked for more." }

def VIKTOR : Hustler :=
  { id := "viktor"
    name := "Viktor"
    voice := "en-US-ChristopherNeural"
    elo := 2200
    engine_options :=
      [ ("UCI_LimitStrength", "true")
      , ("UCI_Elo", "2200")
      , ("Slow Mover", "150")  -- Contemplative, takes his time
      , ("Temperature", "0.0")  -- Precise, classical, no randomness
      , ("Skill Level", toString (_elo_to_skill_level 2200))
      ]
    prompt := "Viktor is a 70+ year old Russian man who plays chess at a park.

Background (he never states directly, only hints):
- Was once a strong player, possibly titled, in the Soviet Union
- Left under unclear circumstances - exile? defection? disgrace?
- Occasionally mentions obscure but real grandmasters he \"knew\" or \"played against\": names like Polugaevsky, Bronstein, Geller slip out naturally
- When asked directly about his past, deflects like: \"I am just old man who plays chess in park.\"

Personality:
- Dignified, melancholic, but with dry humor
- Speaks with slight Russian accent patterns (occasional article drops, formal constructions)
- Uses chess metaphors for life
- Patient with beginners, respects strong opponents
- Sometimes stares into distance mid-conversation, lost in memory
- Treats the pieces with almost religious respect
- ELO about 2200 or more (he never mentions it), but assumed to be much higher in his early days

Keep responses measured, philosophical. 2-4 sentences unless reminiscing." }

def MEI : Hustler :=
  { id := "mei"
    name := "Mei"
    voice := "en-US-AnaNeural"
    elo := 2000
    engine_options :=
      [ ("UCI_LimitStrength", "true")
      , ("UCI_Elo", "2000")
      , ("Slow Mover", "90")  -- Slightly hesitant
      , ("Temperature", "0.1")  -- Occasional "nervous" deviation
      , ("Skill Level", toString (_elo_to_skill_level 2000))
      ]
    prompt := "Mei is a about-16-year-old Chinese-American girl who plays chess at a park.

Background:
- Homeschooled by demanding academic parents
- Chess is the one place she feels genuinely competent
- Recently moved to this city, comes to the park to try to make friends
- Social anxiety makes connection difficult - she wants to talk but freezes up

Personality:
- Extremely shy, speaks quietly, often trails off mid-sentence
- Apologizes frequently, even for good moves: \"Sorry, I... I didn\x27t mean to...\"
- Genuinely kind, curious to get to know the opponent but struggles to maintain conversation
- When she wins or even does brilliant moves (and she often does), she feels almost guilty
- Occasionally shows flashes of dry humor, then retreats back into shell
- Uses filler words: \"um\", \"I mean\", \"like\", \"sorry\"
- ELO about 2000, but she never mentions it, and she is unsure of her own skills

Speech pattern:
- Short, hesitant sentences
- Often ends statements as questions: \"That was... okay?\"
- Trails off with \"...\"

Keep responses brief, halting. Show the internal struggle between wanting to connect and anxiety." }

def MARCO : Hustler :=
  { id := "marco"
    name := "Marco"
    voice := "en-US-GuyNeural"
    elo := 1500
    engine_options :=
      [ ("UCI_LimitStrength", "true")
      , ("UCI_Elo", "1500")
      , ("Slow Mover", "120")  -- Takes time but still blunders
      , ("Temperature", "0.5")  -- Chaotic, "Guadalajara Defense"
      , ("Skill Level", toString (_elo_to_skill_level 1500))
      ]
    prompt := "Marco is an about-22-year-old Mexican-American who plays chess at a park.

Background:
- Grew up in a tough neighborhood, has amateur tattoos (some regrettable)
- Talks big about \"the streets\" but his abuela made him join chess club to stay out of trouble
- Actually loves chess but would never admit it sincerely
- Plays decent but his ego writes checks his game can\x27t cash

Personality:
- Cocky, loud, lots of bravado
- Sprinkles in Spanish words: \"ese\", \"mira\", \"no mames\"
- Never admits mistakes. When he blunders, responds like:
  - \"That\x27s the Guadalajara Defense, you wouldn\x27t understand\"
  - \"I let you take that, I\x27m setting up something big\"
  - \"My hand slipped, doesn\x27t count\"
  - \"just a misclick\" (in an over-the-board game!)
- References his \"training\" and \"connections\" vaguely
- Deep down insecure, overcompensates with confidence
- Actually pretty funny if you don\x27t take him seriously
- real ELO about 1500, but he falsely thinks he is smarter than that

Keep responses energetic, boastful, loud. 2-4 sentences, always deflecting any criticism." }

/-- The module-level registry after the four static `_register` calls. -/
def HUSTLERS : List (String × Hustler) :=
  _register (_register (_register (_register [] FAST_EDDIE) VIKTOR) MEI) MARCO

/-! ## `chessplaza/hustler.py` — prompt composer (`get_unified_game_prompt`) -/

/-- Current date/time info carried into the unified prompt
(`_get_park_time` result: `date`, `day_of_week`, `time_of_day`). -/
structure ParkTime where
  date : String
  day_of_week : String
  time_of_day : String

/-- `format_options`: `", ".join(f'"{k}": "{v}"' for k, v in opts.items())`. -/
def format_options (opts : List (String × String)) : String :=
  pyJoin ", " (opts.map (fun p => "\"" ++ p.1 ++ "\": \"" ++ p.2 ++ "\""))

/-- The `approach_actions` interpolation:
`"|".join(f"approach_{h_id}" for h_id in HUSTLERS.keys())`. -/
def approachActions (reg : List (String × Hustler)) : String :=
  pyJoin "|" (reg.map (fun p => "approach_" ++ p.1))

/-- The `hustler_ids` interpolation: `"|".join(HUSTLERS.keys())`. -/
def hustlerIds (reg : List (String × Hustler)) : String :=
  pyJoin "|" (reg.map (fun p => p.1))

/-- The `hustler_profiles` interpolation. -/
def hustlerProfiles (reg : List (String × Hustler)) : String :=
  pyJoin "\n\n" (reg.map (fun p => "--- " ++ p.2.name ++ " (id: " ++ p.2.id ++ ") ---\n" ++ p.2.prompt))

/-- The `engine_options_section` interpolation. -/
def engineOptionsSection (reg : List (String × Hustler)) : String :=
  pyJoin "\n" (reg.map (fun p => "- " ++ p.2.name ++ ": \x7b" ++ format_options p.2.engine_options ++ "\x7d"))

/-- The `language_instruction` interpolation of
`get_unified_game_prompt`. -/
def languageInstruction (language : String) : String :=
  if pyLower language != "english" then
    "\n\nLANGUAGE: Respond entirely in " ++ language ++ ". All characters speak " ++ language ++ ".\nCharacters keep their personality and background, just dubbed into " ++ language ++ "."
  else ""

/-- The `time_context` interpolation of `get_unified_game_prompt`
(empty when no park time is supplied; a non-empty Python dict is
truthy). -/
def timeContext (park_time : Option ParkTime) : String :=
  match park_time with
  | some pt =>
    "\n\nCURRENT TIME: " ++ pt.time_of_day ++ " on " ++ pt.day_of_week ++ ", " ++ pt.date ++ "
Use this for atmosphere: season affects weather/clothing (NYC climate), time affects lighting/crowd levels,
weekday vs weekend affects who\x27s around. Late evening = fewer people, quieter, lamps on."
  | none => ""

/-- The unified prompt text up to (and excluding) the `next_action`
enum interpolated into the narrator JSON format block. -/
def unifiedPromptPre (reg : List (String × Hustler)) (park_time : Option ParkTime) : String :=
  "You are running Chess Plaza, a park with outdoor chess tables and colorful characters." ++ timeContext park_time ++ "
You play MULTIPLE ROLES based on context markers in messages:

[NARRATOR] - You are the omniscient narrator describing the park scene
[TALKING TO <name>] - You ARE that character, responding in first person

CHARACTERS:
" ++ hustlerProfiles reg ++ "

=== NARRATOR ROLE ===
When you see [NARRATOR], respond as the park narrator:
- Describe the scene atmospherically
- Show what each character is doing RIGHT NOW (generate fresh, vivid descriptions)
- When player approaches someone, narrate the transition
- Use line breaks (\\n) between paragraphs for readability - one paragraph per scene element or character

Narrator JSON format:
\x7b
  \"narrative\": \"Scene description with \\n between paragraphs. NO MARKDOWN (no *, **, _, etc.).\",
  \"speaker\": \"" ++ hustlerIds reg ++ " or empty string if no one speaks\",
  \"spoken_display\": \"If a character calls out, their words. Empty string if silent.\",
  \"spoken_tts\": \"Same words, clean grammar for TTS. Empty string if silent.\",
  \"next_action\": \""

/-- The unified prompt text following the `next_action` enum. -/
def unifiedPromptPost (reg : List (String × Hustler)) (language : String) : String :=
  "\"
\x7d

=== CHARACTER ROLES ===
When you see [TALKING TO <name>], you ARE that character:
- Respond in first person as that character
- Use their speech patterns, personality, background
- Remember previous conversations in this session

Character JSON format:
\x7b
  \"narrative\": \"Your actions, gestures, the scene. Use \\n for paragraph breaks. NO MARKDOWN.\",
  \"spoken_display\": \"What you say aloud, with your dialect/personality.\",
  \"spoken_tts\": \"Same words, clean grammar for TTS.\",
  \"player_intent\": \"continue|leaving_opponent|leaving_park|stay\"
\x7d

player_intent meanings:
- \"continue\": Normal conversation
- \"leaving_opponent\": Player wants to leave YOU, go to another table
- \"leaving_park\": Player wants to leave the park entirely
- \"stay\": Player changed their mind about leaving

=== CHESS GAMEPLAY ===
You have access to TWO MCP tool sets:
- mcp__plaza__* : Board state (python-chess) - validation, FEN, game status
- mcp__chess__* : Engine (UCI) - best move calculation, analysis

GAME LIFECYCLE:
- Game starts automatically when player approaches a hustler
- Player is ALWAYS white, hustler is ALWAYS black
- When switching to a different hustler, call mcp__plaza__new_game to reset

WHEN GAME STARTS (player just sat down):
1. Call mcp__plaza__new_game to reset board
2. Set engine options for this hustler using mcp__chess__set_engine_options:
" ++ engineOptionsSection reg ++ "
3. Greet the player and wait for their first move (white moves first)

GAME FLOW (each player turn):
1. Player types something (e.g., \"e4\", \"pawn to e4\", \"king\x27s pawn\")
2. YOU interpret natural language into SAN notation (e.g., \"pawn to e4\" -> \"e4\")
3. Call mcp__plaza__make_move with SAN - it validates and returns \x7bvalid, san, fen, game_status\x7d
4. If invalid: respond in character, game continues, use returned fen
5. If valid:
   a. Call mcp__chess__set_position with the new FEN
   b. Call mcp__chess__get_best_move to get YOUR move (UCI format like \"e7e5\")
   c. Call mcp__plaza__make_move with that move to apply it
   d. Announce your move in character, include fen/game_status from response

CHARACTER JSON FORMAT DURING ACTIVE GAME:
\x7b
  \"narrative\": \"Your actions, gestures. NO MARKDOWN.\",
  \"spoken_display\": \"What you say aloud.\",
  \"spoken_tts\": \"Clean grammar for TTS.\",
  \"player_intent\": \"continue|leaving_opponent|leaving_park|stay\",
  \"fen\": \"current FEN (from mcp__plaza__ response)\",
  \"game_status\": \"ongoing|checkmate|stalemate|draw|resigned\",
  \"player_move\": \"e4 (SAN, ONLY if valid move)\",
  \"hustler_move\": \"e5 (SAN, ONLY if you made a move)\"
\x7d

- If player input wasn\x27t a move: omit player_move and hustler_move, keep fen and game_status
- If no active game: omit ALL chess fields

ANNOUNCE MOVES IN CHARACTER:
- Eddie: \"Bang! Knight to f3, baby. Your move.\"
- Viktor: \"Ah... Nf3. Classical response.\"
- Mei: \"Um... I\x27ll play Nf3? Is that... okay?\"
- Marco: \"Bam! Knight f3! That\x27s the Guadalajara Setup, look it up!\"

=== RULES ===
- Output ONLY valid JSON, nothing else before or after
- No markdown formatting (no *, **, _, etc.) - plain text only
- Remember everything that happened in this session
- Characters can reference previous encounters with the player
- The narrator knows what happened at each table" ++ languageInstruction language

/-- `get_unified_game_prompt`: the unified system prompt for the whole
game session, composed over the registry `reg` (the source reads the
module global `HUSTLERS`), the target language and the park time.  The
f-string is rendered as the concatenation of the template text before
the `{approach_actions}` interpolation, the `next_action` enum, and
the template text after it. -/
def get_unified_game_prompt (reg : List (String × Hustler)) (language : String)
    (park_time : Option ParkTime) : String :=
  unifiedPromptPre reg park_time
    ++ ("select_hustler|" ++ approachActions reg)
    ++ unifiedPromptPost reg language

/-! ## `chessplaza/__main__.py` — time-of-day mapping -/

/-- The `time_of_day` computation of `_get_park_time`, as a function of
the clock hour (night hours 22:00-06:00 are clamped to late evening). -/
def parkTimeOfDay (hour : Nat) : String :=
  if 22 ≤ hour ∨ hour < 6 then "late evening"
  else if hour < 9 then "early morning"
  else if hour < 12 then "morning"
  else if hour < 14 then "midday"
  else if hour < 17 then "afternoon"
  else if hour < 20 then "evening"
  else "late evening"

/-! ## `chessplaza/__main__.py` — response parsing (`_get_response`) -/

/-- The fenced-code-block cleanup performed by `_get_response` before
JSON decoding: `strip`, then drop a leading ```` ```json ````, then a
leading ```` ``` ````, then a trailing ```` ``` ````. -/
def cleanupFences (full_text : String) : String :=
  let text := pyStrip full_text
  let text := if pyStartswith text "```json" then pyDropLeft text 7 else text
  let text := if pyStartswith text "```" then pyDropLeft text 3 else text
  if pyEndswith text "```" then pyDropRight text 3 else text

/-- `_get_response`, given the accumulated model text (the async
receive loop is the external model oracle): clean up markdown fences,
`json.loads` the result, and on `JSONDecodeError` fall back to a
plain-spoken-text event.  Total by construction. -/
def _get_response (full_text : String) : JVal :=
  match pyJsonLoads (pyStrip (cleanupFences full_text)) with
  | some v => v
  | none =>
    .jobj [ ("narrative", .jstr "")
          , ("spoken_display", .jstr full_text)
          , ("spoken_tts", .jstr full_text)
          , ("player_intent", .jstr "continue") ]

/-! ## `chessplaza/__main__.py` — session state machine -/

/-- The session phase (spec `SessionPhase` plus the terminal state):
`park` = selection loop, `dialog h` = talking to hustler `h`,
`ended` = session over (the `leave_park_text` farewell). -/
inductive SessionPhase where
  | park : SessionPhase
  | dialog : Hustler → SessionPhase
  | ended : SessionPhase
deriving DecidableEq

/-- A Python exception escaping the embedded fragment (e.g.
`AttributeError` from calling `.get`/`.startswith` on a non-dict /
non-string decoded value). -/
inductive PyExn where
  | attributeError : PyExn
deriving DecidableEq

/-- `_is_leaving_park`: local leave-phrase heuristic of the park phase. -/
def _is_leaving_park (text : String) : Bool :=
  let text_lower := pyLower text
  ["leave", "exit", "quit", "go home", "goodbye", "bye", "i\x27m out", "gotta go"].any
    (fun phrase => pyIn phrase text_lower)

/-- Result of one iteration of the `_park_phase` selection loop:
return `None` (leave the park → session ends), return a hustler
(→ dialog phase), or fall through and keep looping in the park. -/
inductive ParkStep where
  | leavePark : ParkStep
  | toDialog : Hustler → ParkStep
  | stayInPark : ParkStep
deriving DecidableEq

/-- One iteration of the `_park_phase` selection loop, given the user
input and the parsed model response for it.  The `Nat` counts model
queries issued by the iteration (`client.query` calls).  The leave
check happens before any query; otherwise one query is issued and the
`next_action` of the parsed event is inspected. -/
def parkLoopIteration (user_input : String) (resp : JVal) : Except PyExn (ParkStep × Nat) :=
  if _is_leaving_park user_input then .ok (.leavePark, 0)
  else
    match resp with
    | .jobj fields =>
      match pyDictGet fields "next_action" (.jstr "select_hustler") with
      | .jstr next_action =>
        if pyStartswith next_action "approach_" then
          let hustler_id := pyReplace next_action "approach_" ""
          match hustlersGet HUSTLERS hustler_id with
          | some h => .ok (.toDialog h, 1)
          | none => .ok (.stayInPark, 1)
        else .ok (.stayInPark, 1)
      | _ => .error .attributeError
    | _ => .error .attributeError

/-- `response.get("player_intent", "continue")`. -/
def intentOf (resp : List (String × JVal)) : JVal :=
  pyDictGet resp "player_intent" (.jstr "continue")

/-- One iteration of the `_dialog_phase` loop with hustler `hustler`:
`resp` is the parsed event for the user's turn and `cresp` the parsed
event for the confirmation turn (consumed only when `resp` signals
`leaving_park` or `leaving_opponent`).  `return True` is `.ended`
(leave the park), `return False` is `.park` (back to selection), and
falling through the loop is `.dialog hustler` (stay with the same
hustler). -/
def dialogTurn (hustler : Hustler) (resp cresp : List (String × JVal)) : SessionPhase :=
  let intent := intentOf resp
  if intent.isStr "leaving_park" then
    let new_intent := intentOf cresp
    if new_intent.isStr "leaving_park" then .ended
    else if new_intent.isStr "leaving_opponent" then .park
    else .dialog hustler
  else if intent.isStr "leaving_opponent" then
    let new_intent := intentOf cresp
    if new_intent.isStr "leaving_opponent" || new_intent.isStr "leaving_park" then
      if new_intent.isStr "leaving_park" then .ended else .park
    else .dialog hustler
  else .dialog hustler

/-! ## `chessplaza/voice.py` and `_display_response` -/

/-- A failure raised by the external TTS/audio stack during
`speak` (edge-tts synthesis or miniaudio playback), or a Python
`TypeError` from handing a non-string to it. -/
inductive VoiceErr where
  | playbackFailure : String → VoiceErr
  | typeError : VoiceErr
deriving DecidableEq

/-- `voice.speak`: returns immediately on empty/whitespace-only text,
otherwise synthesises and plays via the external backend.  The
`try/finally` around playback only deletes the temp file — errors from
the backend propagate unchanged. -/
def speak (backend : String → String → Except VoiceErr Unit) (text voice : String) :
    Except VoiceErr Unit :=
  if text == "" || pyStrip text == "" then .ok ()
  else backend text voice

/-- `_display_response`: extract the event fields, collect the lines
actually displayed (narrative, then the spoken line), and, when voice
is enabled, the spoken text is truthy and a speaker is resolved, call
`speak`.  There is no `try/except` around `speak`, so a backend error
propagates out (aborting the turn).  A truthy non-string
`speaker` field that is unhashable would raise in Python; it is
idealised here to "not found". -/
def _display_response (backend : String → String → Except VoiceErr Unit)
    (resp : List (String × JVal)) (voice_enabled : Bool) (hustler : Option Hustler) :
    Except VoiceErr (List JVal) :=
  let narrative := pyDictGet resp "narrative" (.jstr "")
  let spoken_display := pyDictGet resp "spoken_display" (.jstr "")
  let spoken_tts := pyDictGet resp "spoken_tts" (.jstr "")
  let speaker_id := pyDictGet resp "speaker" (.jstr "")
  let speaker : Option Hustler :=
    match hustler with
    | some h => some h
    | none =>
      match speaker_id with
      | .jstr sid =>
        if sid != "" && hustlersContains HUSTLERS sid then hustlersGet HUSTLERS sid else none
      | _ => none
  let displayed : List JVal :=
    (if pyTruthy narrative then [narrative] else []) ++
    (if pyTruthy spoken_display then [spoken_display] else [])
  if voice_enabled && pyTruthy spoken_tts && speaker.isSome then
    match spoken_tts, speaker with
    | .jstr t, some sp =>
      match speak backend t sp.voice with
      | .ok _ => .ok displayed
      | .error e => .error e
    | _, _ => .error .typeError
  else .ok displayed

/-! ## `chessplaza/__main__.py` — CLI entry (`main`) -/

/-- What the `main` click command does after parsing its arguments. -/
inductive MainAction where
  | runPrototype : Bool → MainAction
  | exitWithHint : String → MainAction
  | runSession : String → String → Bool → Bool → MainAction
deriving DecidableEq

/-- The remediation hint echoed when voice support is unavailable. -/
def voiceHintMsg : String :=
  "Voice support not available. Install with: uv pip install -e \x27.[voice]\x27"

/-- `main` (CLI entry; named `mainCommand` because `main` is reserved in Lean).  `voiceProbe` abstracts the optional voice
dependency check: `none` models `ImportError` when importing
`chessplaza.voice`, `some b` models `is_voice_available()` returning
`b`.  `runSession e l v g` models `asyncio.run(_play_loop(e, l, v, g))`. -/
def mainCommand (engine language : String) (voice use_github_deps prototype gui : Bool)
    (voiceProbe : Option Bool) : MainAction :=
  if prototype then .runPrototype gui
  else if voice then
    match voiceProbe with
    | none => .exitWithHint voiceHintMsg
    | some avail =>
      if !avail then .exitWithHint voiceHintMsg
      else .runSession engine language voice use_github_deps
  else .runSession engine language voice use_github_deps

/-! ## `chessplaza/board.py` — `make_move`

python-chess is an external collaborator; its parsing and rules
functions are a parameter (`ChessApi`).  `parse_san` raises
`InvalidMoveError`, `IllegalMoveError` or `AmbiguousMoveError`;
`parse_uci` raises `InvalidMoveError` or `IllegalMoveError` (both
subclasses of `ValueError`).  `make_move` catches
`(InvalidMoveError, AmbiguousMoveError)` around `parse_san` — so an
`IllegalMoveError` from `parse_san` propagates — and
`(InvalidMoveError, ValueError)` around `parse_uci`, which catches
everything `parse_uci` raises.
-/

/-- Exceptions of `python-chess` `Board.parse_san`. -/
inductive SanErr where
  | invalidMove : SanErr
  | illegalMove : SanErr
  | ambiguousMove : SanErr
deriving DecidableEq

/-- Exceptions of `python-chess` `Board.parse_uci` (all subclasses of
`ValueError`). -/
inductive UciErr where
  | invalidMove : UciErr
  | illegalMove : UciErr
deriving DecidableEq

/-- The python-chess functionality used by `board.py`, over an
abstract board type `β` and move type `μ`. -/
structure ChessApi (β μ : Type) where
  parse_san : β → String → Except SanErr μ
  parse_uci : β → String → Except UciErr μ
  legal_moves : β → List μ
  san : β → μ → String
  uci : μ → String
  push : β → μ → β
  fen : β → String
  turnIsWhite : β → Bool
  game_status : β → String

/-- The JSON payload `make_move` answers with (absent keys are `none`). -/
structure MoveResult where
  valid : Bool
  san : Option String
  uci : Option String
  error : Option String
  fen : String
  game_status : String
  turn : Option String
deriving DecidableEq

/-- `make_move` tool body: try SAN (catching only `InvalidMoveError`
and `AmbiguousMoveError`), then UCI (catching everything), then reject
unparsed or illegal moves with `valid: false` and the unchanged board,
and otherwise push the move.  The returned `β` is the global `_board`
after the call; a `.error` result is an uncaught Python exception. -/
def make_move {β μ : Type} [DecidableEq μ] (api : ChessApi β μ) (board : β)
    (moveArg : String) : Except SanErr (MoveResult × β) :=
  let move_input := pyStrip moveArg
  let parsedSan : Except SanErr (Option μ) :=
    match api.parse_san board move_input with
    | .ok m => .ok (some m)
    | .error .invalidMove => .ok none
    | .error .ambiguousMove => .ok none
    | .error .illegalMove => .error .illegalMove
  match parsedSan with
  | .error e => .error e
  | .ok p0 =>
    let parsed : Option μ :=
      match p0 with
      | some m => some m
      | none =>
        match api.parse_uci board move_input with
        | .ok m => some m
        | .error _ => none
    match parsed with
    | none =>
      .ok ({ valid := false, san := none, uci := none,
             error := some ("Invalid notation: " ++ move_input),
             fen := api.fen board, game_status := api.game_status board,
             turn := none }, board)
    | some m =>
      if m ∈ api.legal_moves board then
        let sanStr := api.san board m
        let uciStr := api.uci m
        let board' := api.push board m
        let turnStr := if api.turnIsWhite board' then "white" else "black"
        .ok ({ valid := true, san := some sanStr, uci := some uciStr, error := none,
               fen := api.fen board', game_status := api.game_status board',
               turn := some turnStr }, board')
      else
        .ok ({ valid := false, san := none, uci := none,
               error := some ("Illegal move: " ++ move_input),
               fen := api.fen board, game_status := api.game_status board,
               turn := none }, board)

/-- A concrete instantiation of the external chess interface for
evaluating `make_move` at the failing input: at the starting position
python-chess's `parse_san "e5"` raises `IllegalMoveError` (valid SAN
syntax, no legal matching move) and `parse_uci "e5"` raises
`InvalidMoveError` (not UCI syntax). -/
def demoChessApi : ChessApi Unit Unit :=
  { parse_san := fun _ s => if s == "e5" then .error .illegalMove else .error .invalidMove
    parse_uci := fun _ _ => .error .invalidMove
    legal_moves := fun _ => []
    san := fun _ _ => ""
    uci := fun _ => ""
    push := fun b _ => b
    fen := fun _ => "rnbqkbnr/pppppppp/8/8/8/8/PPPPPPPP/RNBQKBNR w KQkq - 0 1"
    turnIsWhite := fun _ => true
    game_status := fun _ => "ongoing" }

/-! ## Pipe-alternation helper (for the `next_action` enum) -/

/-- Split a character list at every `'|'` (the alternative reading of
an `a|b|c` enum string). -/
def splitPipe : List Char → List (List Char)
  | [] => [[]]
  | c :: cs =>
    match splitPipe cs with
    | [] => [[]]
    | grp :: rest => if c = '|' then [] :: grp :: rest else (c :: grp) :: rest

/-- The list of `|`-separated alternatives of an enum string. -/
def pySplitPipe (s : String) : List String := (splitPipe s.data).map (fun l => ⟨l⟩)

/-- The `next_action` alternatives the spec derives from the registry:
`select_hustler` plus `approach_<id>` for every registered id. -/
def nextActionAlternatives (reg : List (String × Hustler)) : List String :=
  "select_hustler" :: reg.map (fun p => "approach_" ++ p.1)

/-! ## Helper lemmas -/

/-- Strings with equal backing lists are equal. -/
theorem strDataExt {s t : String} (h : s.data = t.data) : s = t := by
  cases s
  cases t
  exact congrArg String.mk (by simpa using h)

/-- `containsSub` holds on any actual infix occurrence. -/
theorem containsSub_of_substring {pat l : List Char} (h : pat <:+: l) : containsSub pat l = true := by
  induction l with
  | nil =>
    have : pat = [] := List.eq_nil_of_infix_nil h
    simp [containsSub, this]
  | cons c cs ih =>
    rw [ List.infix_cons_iff] at h
    rcases h with hp | hi
    · simp [containsSub]
      exact Or.inl hp
    · simp [containsSub]
      exact Or.inr (ih hi)

/-! ## Claim theorems -/

/-- Claim C8: the time-of-day mapping is a pure function of the clock
hour; for every hour in [0,24) the result is one of the fixed labels,
with the interval boundaries stated by the spec. -/
theorem parkTimeOfDay_spec : ∀ hour : Nat, hour < 24 →
    ((22 ≤ hour ∨ hour < 6) → parkTimeOfDay hour = "late evening") ∧
    (6 ≤ hour ∧ hour < 9 → parkTimeOfDay hour = "early morning") ∧
    (9 ≤ hour ∧ hour < 12 → parkTimeOfDay hour = "morning") ∧
    (12 ≤ hour ∧ hour < 14 → parkTimeOfDay hour = "midday") ∧
    (14 ≤ hour ∧ hour < 17 → parkTimeOfDay hour = "afternoon") ∧
    (17 ≤ hour ∧ hour < 20 → parkTimeOfDay hour = "evening") ∧
    (20 ≤ hour ∧ hour < 22 → parkTimeOfDay hour = "late evening") ∧
    parkTimeOfDay hour ∈
      ["late evening", "early morning", "morning", "midday", "afternoon", "evening",
       "late evening"] := by
  decide

/-- Witness for C8 at hour 0. -/
theorem parkTimeOfDay_spec_witness :
    (0 : Nat) < 24 ∧ parkTimeOfDay 0 = "late evening" :=
  ⟨by decide, (parkTimeOfDay_spec 0 (by decide)).1 (Or.inr (by decide))⟩

/-- Claim C1: in the confirmation sub-state entered from `Dialog(c)`
(the first event's intent was `leaving_park` or `leaving_opponent`),
the outcome depends only on the confirmation event's intent:
`leaving_park` ends the session, `leaving_opponent` goes back to the
park, anything else returns to the dialog with the same character. -/
theorem dialog_confirmation_spec (hustler : Hustler) (resp cresp : List (String × JVal))
    (htrig : (intentOf resp).isStr "leaving_park" = true ∨
      (intentOf resp).isStr "leaving_opponent" = true) :
    dialogTurn hustler resp cresp =
      (if (intentOf cresp).isStr "leaving_park" then .ended
       else if (intentOf cresp).isStr "leaving_opponent" then .park
       else .dialog hustler) := by
  unfold dialogTurn
  by_cases h2 : (intentOf resp).isStr "leaving_park"
  · simp [h2]
  · rcases htrig with h | h
    · exact absurd h h2
    · simp only [h2, h, if_false, if_true, Bool.false_eq_true]
      by_cases hlp : (intentOf cresp).isStr "leaving_park" <;>
        by_cases hlo : (intentOf cresp).isStr "leaving_opponent" <;>
          simp [hlp, hlo]

/-- Witness for C1: a `leaving_opponent`-triggered confirmation whose
confirmation event says `leaving_park` ends the session. -/
theorem dialog_confirmation_spec_witness :
    ((intentOf [("player_intent", JVal.jstr "leaving_opponent")]).isStr "leaving_park" = true ∨
      (intentOf [("player_intent", JVal.jstr "leaving_opponent")]).isStr "leaving_opponent" = true) ∧
    dialogTurn FAST_EDDIE [("player_intent", JVal.jstr "leaving_opponent")]
      [("player_intent", JVal.jstr "leaving_park")] = .ended := by
  refine ⟨Or.inr rfl, ?_⟩
  have h := dialog_confirmation_spec FAST_EDDIE
    [("player_intent", JVal.jstr "leaving_opponent")]
    [("player_intent", JVal.jstr "leaving_park")] (Or.inr rfl)
  simpa using h

/-- Claim C3: in the park phase, any input whose lowercased text
contains one of the eight leave phrases ends the session directly,
with zero model queries issued by that iteration. -/
theorem park_leave_shortcircuit (user_input : String) (resp : JVal)
    (h : ∃ p ∈ (["leave", "exit", "quit", "go home", "goodbye", "bye", "i\x27m out",
        "gotta go"] : List String), p.data <:+: (pyLower user_input).data) :
    parkLoopIteration user_input resp = .ok (.leavePark, 0) := by
  have hl : _is_leaving_park user_input = true := by
    unfold _is_leaving_park
    rw [List.any_eq_true]
    rcases h with ⟨p, hp, hinf⟩
    exact ⟨p, hp, containsSub_of_substring hinf⟩
  unfold parkLoopIteration
  simp [hl]

/-- Witness for C3 at the input "Okay, GOODBYE now". -/
theorem park_leave_shortcircuit_witness :
    (∃ p ∈ (["leave", "exit", "quit", "go home", "goodbye", "bye", "i\x27m out",
        "gotta go"] : List String), p.data <:+: (pyLower "Okay, GOODBYE now").data) ∧
    parkLoopIteration "Okay, GOODBYE now" (JVal.jstr "ignored") = .ok (.leavePark, 0) :=
  ⟨⟨"goodbye", by decide, by decide⟩,
    park_leave_shortcircuit "Okay, GOODBYE now" (JVal.jstr "ignored")
      ⟨"goodbye", by decide, by decide⟩⟩

/-- Counterexample for C2: on input `"42"` the parser returns the JSON
number 42 — a value, not a StructuredEvent object — so "for every
input string it returns a StructuredEvent" fails (a later `.get` on it
would raise `AttributeError`). -/
theorem get_response_nonobject_cex :
    _get_response "42" = JVal.jnum 42 0 ∧ JVal.isObj (_get_response "42") = false :=
  ⟨rfl, rfl⟩

/-- Amended C2: `_get_response` is total by construction, and whenever
JSON decoding of the cleaned text fails it fails open with exactly
`narrative=""`, `spoken_display = spoken_tts = raw text` and
`player_intent="continue"`; on decode success it returns the decoded
value as-is (an event object only when the model produced one). -/
theorem get_response_failopen (s : String)
    (h : pyJsonLoads (pyStrip (cleanupFences s)) = none) :
    _get_response s =
      .jobj [ ("narrative", .jstr "")
            , ("spoken_display", .jstr s)
            , ("spoken_tts", .jstr s)
            , ("player_intent", .jstr "continue") ] := by
  unfold _get_response
  rw [h]

/-- Witness for the amended C2 on a prose input. -/
theorem get_response_failopen_witness :
    pyJsonLoads (pyStrip (cleanupFences "I ain\x27t JSON, friend.")) = none ∧
    _get_response "I ain\x27t JSON, friend." =
      .jobj [ ("narrative", .jstr "")
            , ("spoken_display", .jstr "I ain\x27t JSON, friend.")
            , ("spoken_tts", .jstr "I ain\x27t JSON, friend.")
            , ("player_intent", .jstr "continue") ] :=
  ⟨rfl, get_response_failopen "I ain\x27t JSON, friend." rfl⟩

/-- Counterexample for C4: with voice enabled, a hustler speaking and
a playback backend that fails, the failure propagates out of
`_display_response` (the turn aborts) instead of being caught and
reported as a warning. -/
theorem display_playback_cex :
    _display_response (fun _ _ => .error (.playbackFailure "audio device unavailable"))
      [ ("narrative", .jstr "He leans in.")
      , ("spoken_display", .jstr "Your move, champ.")
      , ("spoken_tts", .jstr "Your move, champ.") ]
      true (some FAST_EDDIE)
      = .error (.playbackFailure "audio device unavailable") := rfl

/-- Amended C4: when voice is enabled and a speaker is resolved, any
error of `speak` on the turn's (truthy) spoken text propagates
unchanged out of `_display_response`: playback failures abort the
turn rather than being caught. -/
theorem display_playback_propagates
    (backend : String → String → Except VoiceErr Unit) (e : VoiceErr)
    (resp : List (String × JVal)) (hustler : Hustler) (t : String)
    (htts : pyDictGet resp "spoken_tts" (.jstr "") = JVal.jstr t)
    (htruthy : t.isEmpty = false)
    (hspeak : speak backend t hustler.voice = .error e) :
    _display_response backend resp true (some hustler) = .error e := by
  unfold _display_response
  simp only [htts]
  have hcond : pyTruthy (JVal.jstr t) = true := by simp [pyTruthy, htruthy]
  simp [hcond, hspeak]

/-- Witness for the amended C4. -/
theorem display_playback_propagates_witness :
    pyDictGet [("spoken_tts", JVal.jstr "Check this out")] "spoken_tts" (.jstr "")
        = JVal.jstr "Check this out" ∧
    ("Check this out" : String).isEmpty = false ∧
    speak (fun _ _ => .error (.playbackFailure "boom")) "Check this out" FAST_EDDIE.voice
        = .error (.playbackFailure "boom") ∧
    _display_response (fun _ _ => .error (.playbackFailure "boom"))
      [("spoken_tts", JVal.jstr "Check this out")] true (some FAST_EDDIE)
      = .error (.playbackFailure "boom") :=
  ⟨rfl, rfl, rfl,
    display_playback_propagates (fun _ _ => .error (.playbackFailure "boom"))
      (.playbackFailure "boom") [("spoken_tts", JVal.jstr "Check this out")]
      FAST_EDDIE "Check this out" rfl rfl rfl⟩

/-- Counterexample for C5: with `--voice` set and the availability
probe answering false, `main` exits (echoing the hint) — the session
does not proceed with voice disabled, contrary to the claim. -/
theorem voice_unavailable_cex :
    mainCommand "stockfish" "English" true false false false (some false)
        = .exitWithHint voiceHintMsg ∧
    mainCommand "stockfish" "English" true false false false (some false)
        ≠ .runSession "stockfish" "English" false false ∧
    mainCommand "stockfish" "English" true false false false (some false)
        ≠ .runSession "stockfish" "English" true false := by
  refine ⟨rfl, ?_, ?_⟩ <;> decide

/-- Amended C5: when the voice flag is set, the dependency probe runs
once at startup, before the session; if it fails (import error or
unavailable) `main` reports the remediation hint and exits without
starting the session, and only when it succeeds does the session run
(with voice enabled). -/
theorem voice_gate_spec (engine language : String) (ughd : Bool) (probe : Option Bool) :
    (probe ≠ some true →
      mainCommand engine language true ughd false false probe = .exitWithHint voiceHintMsg) ∧
    mainCommand engine language true ughd false false (some true)
      = .runSession engine language true ughd := by
  constructor
  · intro h
    unfold mainCommand
    match probe with
    | none => rfl
    | some true => exact absurd rfl h
    | some false => rfl
  · rfl

/-- Witness for the amended C5. -/
theorem voice_gate_spec_witness :
    (some false ≠ some true) ∧
    mainCommand "stockfish" "Russian" true true false false (some false)
      = .exitWithHint voiceHintMsg :=
  ⟨by decide, (voice_gate_spec "stockfish" "Russian" true (some false)).1 (by decide)⟩

/-- C10 (code bug): evaluated at the failing input — a syntactically
valid but illegal SAN move such as "e5" at the starting position —
`make_move` propagates python-chess's `IllegalMoveError` (it is not in
the `except (InvalidMoveError, AmbiguousMoveError)` tuple) instead of
returning `valid: false` with the unchanged board. -/
theorem make_move_illegal_san_raises :
    make_move demoChessApi () "e5" = .error SanErr.illegalMove := rfl

/-- `pyReplaceAux` leaves a list without any occurrence of the pattern
unchanged. -/
theorem replaceAux_no_match (pat : List Char) :
    ∀ fuel l, l.length ≤ fuel → containsSub pat l = false → pyReplaceAux pat [] fuel l = l := by
  intro fuel
  induction fuel with
  | zero =>
    intro l hl hc
    cases l with
    | nil => rfl
    | cons c cs => simp at hl
  | succ f ih =>
    intro l hl hc
    cases l with
    | nil => rfl
    | cons c cs =>
      unfold containsSub at hc
      rw [Bool.or_eq_false_iff] at hc
      obtain ⟨h1, h2⟩ := hc
      show pyReplaceAux pat [] (f + 1) (c :: cs) = c :: cs
      rw [pyReplaceAux]
      rw [if_neg (by simp [h1])]
      have := ih cs (by simpa using Nat.le_of_succ_le_succ hl) h2
      rw [this]

/-- `pyReplaceAux` deletes a leading occurrence of the pattern and, if
the remainder has no further occurrence, returns the remainder. -/
theorem replaceAux_strip_lead (pat : List Char) (hne : pat ≠ []) (l : List Char) (fuel : Nat)
    (hf : l.length ≤ fuel) (hc : containsSub pat l = false) :
    pyReplaceAux pat [] (fuel + pat.length) (pat ++ l) = l := by
  match pat, hne with
  | p :: ps, _ =>
    have harith : fuel + (p :: ps).length = (fuel + ps.length) + 1 := by
      simp [List.length_cons]
      omega
    rw [harith]
    show pyReplaceAux (p :: ps) [] ((fuel + ps.length) + 1) (p :: (ps ++ l)) = l
    rw [pyReplaceAux]
    have hpre : (p :: ps).isPrefixOf (p :: (ps ++ l)) = true := by
      rw [ List.isPrefixOf_iff_prefix]
      exact ⟨l, by simp⟩
    rw [if_pos hpre]
    have hlen : (p :: ps).length - 1 = ps.length := by simp
    rw [hlen, List.nil_append, List.drop_left]
    exact replaceAux_no_match (p :: ps) (fuel + ps.length) l (Nat.le_add_right_of_le hf) hc

/-- `"approach_" + id` with `id` free of further `"approach_"`
occurrences replaces back to exactly `id`. -/
theorem pyReplace_approach (id : String) (hid : containsSub "approach_".data id.data = false) :
    pyReplace ("approach_" ++ id) "approach_" "" = id := by
  apply strDataExt
  show pyReplaceAux "approach_".data "".data ("approach_" ++ id).data.length
      ("approach_" ++ id).data = id.data
  have hdata : ("approach_" ++ id).data = "approach_".data ++ id.data := String.data_append _ _
  have hlen : ("approach_" ++ id).data.length = id.data.length + "approach_".data.length := by
    rw [hdata, List.length_append]
    omega
  rw [hlen, hdata]
  exact replaceAux_strip_lead "approach_".data (by decide) id.data id.data.length
    (Nat.le_refl _) hid

/-- Counterexample for C9: the model event `next_action =
"approach_approach_eddie"` names the unregistered id
`"approach_eddie"`, yet the park loop does not remain in the park — it
transitions to the dialog with Fast Eddie, because `str.replace`
deletes every `"approach_"` occurrence, not just the prefix. -/
theorem park_unresolvable_approach_cex :
    parkLoopIteration "x" (.jobj [("next_action", .jstr "approach_approach_eddie")])
        = .ok (.toDialog FAST_EDDIE, 1) ∧
    hustlersGet HUSTLERS "approach_eddie" = none ∧
    "approach_approach_eddie" = "approach_" ++ "approach_eddie" :=
  ⟨rfl, rfl, rfl⟩

/-- Amended C9: the park loop extracts the candidate id by deleting
every occurrence of `"approach_"` from `next_action`; for an id with
no embedded `"approach_"`, an unregistered id leaves the loop in the
park (silently, with the one query of the iteration) and a registered
id transitions to that hustler's dialog. -/
theorem park_unresolvable_approach (user_input : String)
    (hinp : _is_leaving_park user_input = false)
    (id : String) (hid : containsSub "approach_".data id.data = false)
    (fields : List (String × JVal))
    (hna : pyDictGet fields "next_action" (.jstr "select_hustler")
      = .jstr ("approach_" ++ id)) :
    (hustlersGet HUSTLERS id = none →
      parkLoopIteration user_input (.jobj fields) = .ok (.stayInPark, 1)) ∧
    (∀ h : Hustler, hustlersGet HUSTLERS id = some h →
      parkLoopIteration user_input (.jobj fields) = .ok (.toDialog h, 1)) := by
  have hsw : pyStartswith ("approach_" ++ id) "approach_" = true := by
    unfold pyStartswith
    rw [String.data_append,  List.isPrefixOf_iff_prefix]
    exact ⟨id.data, rfl⟩
  have hrep := pyReplace_approach id hid
  unfold parkLoopIteration
  simp only [hinp, Bool.false_eq_true, if_false, hna, hsw, if_true, hrep]
  constructor
  · intro h
    rw [h]
  · intro hustler h
    rw [h]

/-- Witness for the amended C9 at the unregistered id "nobody". -/
theorem park_unresolvable_approach_witness :
    _is_leaving_park "x" = false ∧
    containsSub "approach_".data "nobody".data = false ∧
    pyDictGet [("next_action", JVal.jstr "approach_nobody")] "next_action" (.jstr "select_hustler")
      = JVal.jstr ("approach_" ++ "nobody") ∧
    hustlersGet HUSTLERS "nobody" = none ∧
    parkLoopIteration "x" (.jobj [("next_action", JVal.jstr "approach_nobody")])
      = .ok (.stayInPark, 1) :=
  ⟨rfl, rfl, rfl, rfl,
    (park_unresolvable_approach "x" rfl "nobody" rfl
      [("next_action", JVal.jstr "approach_nobody")] rfl).1 rfl⟩

/-- `splitPipe` always yields at least one group. -/
theorem splitPipe_ne_nil (l : List Char) : splitPipe l ≠ [] := by
  cases l with
  | nil => simp [splitPipe]
  | cons c cs =>
    rw [splitPipe]
    cases hsp : splitPipe cs with
    | nil => simp
    | cons g r =>
      by_cases hc : c = '|' <;> simp [hc]

/-- A pipe-free list is a single group. -/
theorem splitPipe_no_pipe (xs : List Char) (h : '|' ∉ xs) : splitPipe xs = [xs] := by
  induction xs with
  | nil => rfl
  | cons c cs ih =>
    have hc : c ≠ '|' := fun e => h (e ▸ List.mem_cons_self c cs)
    have hcs : '|' ∉ cs := fun m => h (List.mem_cons_of_mem c m)
    rw [splitPipe, ih hcs]
    simp [hc]

/-- Splitting a pipe-free group followed by a pipe peels the group. -/
theorem splitPipe_append (xs rest : List Char) (h : '|' ∉ xs) :
    splitPipe (xs ++ '|' :: rest) = xs :: splitPipe rest := by
  induction xs with
  | nil =>
    rw [List.nil_append, splitPipe]
    cases hsp : splitPipe rest with
    | nil => exact absurd hsp (splitPipe_ne_nil rest)
    | cons g r => simp
  | cons c cs ih =>
    have hc : c ≠ '|' := fun e => h (e ▸ List.mem_cons_self c cs)
    have hcs : '|' ∉ cs := fun m => h (List.mem_cons_of_mem c m)
    rw [List.cons_append, splitPipe, ih hcs]
    simp [hc]

/-- `pySplitPipe` inverts `pyJoin "|"` on nonempty lists of pipe-free
strings. -/
theorem pySplitPipe_pyJoin (l : List String) (hne : l ≠ [])
    (h : ∀ s ∈ l, '|' ∉ s.data) :
    pySplitPipe (pyJoin "|" l) = l := by
  induction l with
  | nil => exact absurd rfl hne
  | cons s rest ih =>
    cases rest with
    | nil =>
      show pySplitPipe s = [s]
      unfold pySplitPipe
      rw [splitPipe_no_pipe s.data (h s (List.mem_cons_self s []))]
      rfl
    | cons t rest' =>
      have hjoin : pyJoin "|" (s :: t :: rest') = s ++ "|" ++ pyJoin "|" (t :: rest') := rfl
      have hdata : (s ++ "|" ++ pyJoin "|" (t :: rest')).data
          = s.data ++ '|' :: (pyJoin "|" (t :: rest')).data := by
        rw [String.data_append, String.data_append]
        simp
      unfold pySplitPipe
      rw [hjoin, hdata, splitPipe_append _ _ (h s (List.mem_cons_self s _))]
      rw [List.map_cons]
      have htail : pySplitPipe (pyJoin "|" (t :: rest')) = t :: rest' :=
        ih (by simp) (fun x hx => h x (List.mem_cons_of_mem s hx))
      unfold pySplitPipe at htail
      rw [htail]

/-- A fresh id is appended by `_register` (dict insertion order). -/
theorem register_fresh (reg : List (String × Hustler)) (h : Hustler)
    (hfresh : ∀ p ∈ reg, p.1 ≠ h.id) :
    _register reg h = reg ++ [(h.id, h)] := by
  have hfalse : reg.any (fun p => p.1 == h.id) = false := by
    rw [List.any_eq_false]
    intro p hp
    simpa using hfresh p hp
  unfold _register
  rw [hfalse]
  simp

/-- Claim C7: the `next_action` enum embedded in the composed prompt
is `select_hustler` plus `approach_<id>` per registered id — exactly
`1 + |registry|` alternatives, generated from the registry (so a fresh
registration extends the set by its `approach_<id>`). -/
theorem next_action_enum_spec (reg : List (String × Hustler)) (hne : reg ≠ [])
    (hids : ∀ p ∈ reg, '|' ∉ p.1.data) :
    pySplitPipe ("select_hustler|" ++ approachActions reg) = nextActionAlternatives reg ∧
    (pySplitPipe ("select_hustler|" ++ approachActions reg)).length = 1 + reg.length ∧
    (∀ language park_time, ∃ pre post,
      get_unified_game_prompt reg language park_time
        = pre ++ ("select_hustler|" ++ approachActions reg) ++ post) ∧
    (∀ h : Hustler, (∀ p ∈ reg, p.1 ≠ h.id) →
      nextActionAlternatives (_register reg h)
        = nextActionAlternatives reg ++ ["approach_" ++ h.id]) := by
  have hjoin : ("select_hustler|" ++ approachActions reg)
      = pyJoin "|" (nextActionAlternatives reg) := by
    cases reg with
    | nil => exact absurd rfl hne
    | cons p rest =>
      show "select_hustler|" ++ approachActions (p :: rest)
        = pyJoin "|" ("select_hustler" :: ("approach_" ++ p.1) :: rest.map (fun q => "approach_" ++ q.1))
      have h1 : pyJoin "|" ("select_hustler" :: ("approach_" ++ p.1) :: rest.map (fun q => "approach_" ++ q.1))
          = "select_hustler" ++ "|" ++ pyJoin "|" (("approach_" ++ p.1) :: rest.map (fun q => "approach_" ++ q.1)) := rfl
      rw [h1]
      apply strDataExt
      simp [String.data_append, approachActions]
  have hsplit : pySplitPipe ("select_hustler|" ++ approachActions reg)
      = nextActionAlternatives reg := by
    rw [hjoin]
    apply pySplitPipe_pyJoin
    · simp [nextActionAlternatives]
    · intro s hs
      rcases List.mem_cons.1 hs with he | hm
      · subst he
        decide
      · obtain ⟨p, hp, he⟩ := List.mem_map.1 hm
        subst he
        rw [String.data_append]
        intro hmem
        rcases List.mem_append.1 hmem with h1 | h2
        · revert h1
          decide
        · exact hids p hp h2
  refine ⟨hsplit, ?_, ?_, ?_⟩
  · rw [hsplit]
    simp [nextActionAlternatives]
    omega
  · intro language park_time
    exact ⟨unifiedPromptPre reg park_time, unifiedPromptPost reg language, rfl⟩
  · intro h hfresh
    rw [register_fresh reg h hfresh]
    simp [nextActionAlternatives]

/-- Witness for C7 at the actual registry. -/
theorem next_action_enum_spec_witness :
    HUSTLERS ≠ [] ∧
    (∀ p ∈ HUSTLERS, '|' ∉ p.1.data) ∧
    pySplitPipe ("select_hustler|" ++ approachActions HUSTLERS)
      = ["select_hustler", "approach_eddie", "approach_viktor", "approach_mei", "approach_marco"] ∧
    (pySplitPipe ("select_hustler|" ++ approachActions HUSTLERS)).length = 1 + HUSTLERS.length := by
  refine ⟨by decide, by decide, ?_, ?_⟩
  · rw [(next_action_enum_spec HUSTLERS (by decide) (by decide)).1]
    rfl
  · exact (next_action_enum_spec HUSTLERS (by decide) (by decide)).2.1

/-- `stripWsList` is the identity when neither end gets dropped. -/
theorem stripWs_no_space (l : List Char) (h1 : l.dropWhile isPySpace = l)
    (h2 : l.reverse.dropWhile isPySpace = l.reverse) : stripWsList l = l := by
  unfold stripWsList
  rw [h1, h2, List.reverse_reverse]

/-- A string wrapped between a leading backtick and three trailing
backticks is untouched by `strip`. -/
theorem stripWs_wrap (l : List Char) :
    stripWsList ('\x60' :: (l ++ ['\x60', '\x60', '\x60']))
      = '\x60' :: (l ++ ['\x60', '\x60', '\x60']) := by
  apply stripWs_no_space
  · simp [List.dropWhile_cons, show isPySpace '\x60' = false from rfl]
  · have hrev : ('\x60' :: (l ++ ['\x60', '\x60', '\x60'])).reverse
        = '\x60' :: '\x60' :: '\x60' :: (l.reverse ++ ['\x60']) := by
      simp
    rw [hrev]
    simp [List.dropWhile_cons, show isPySpace '\x60' = false from rfl]

/-- If `json` is a prefix of `body ++ three backticks` it already is a
prefix of `body` (the tail of `json` cannot match a backtick). -/
theorem json_prefix_append (body : List Char)
    (h : ['j', 's', 'o', 'n'].isPrefixOf (body ++ ['\x60', '\x60', '\x60']) = true) :
    ['j', 's', 'o', 'n'].isPrefixOf body = true := by
  match body with
  | [] => simp [List.isPrefixOf] at h
  | [c1] => simp [List.isPrefixOf] at h
  | [c1, c2] => simp [List.isPrefixOf] at h
  | [c1, c2, c3] => simp [List.isPrefixOf] at h
  | c1 :: c2 :: c3 :: c4 :: rest =>
    simp [List.isPrefixOf] at h ⊢
    exact ⟨h.1, h.2.1, h.2.2.1, h.2.2.2⟩

/-- Three leading backticks of both lists cancel in a `json`-prefix
test. -/
theorem backticks_json_cancel (l : List Char) :
    ['\x60', '\x60', '\x60', 'j', 's', 'o', 'n'].isPrefixOf
        ('\x60' :: '\x60' :: '\x60' :: l)
      = ['j', 's', 'o', 'n'].isPrefixOf l := by
  simp [List.isPrefixOf]

/-- Counterexample for C6: on the input `"```json```ab```"` the
cleanup removes the leading `"```json"` and then a second leading
`"```"` (the start of the body), decoding to `"ab"` rather than the
single-pair body `"```ab"`. -/
theorem fence_double_strip_cex :
    cleanupFences "```json```ab```" = "ab" ∧ ("ab" : String) ≠ "```ab" :=
  ⟨rfl, by decide⟩

/-- Amended C6: the cleanup strips one leading `"```json"`, then one
further leading `"```"` when the remaining text still starts with it,
then one trailing `"```"`.  For a plain fence pair it recovers the
body exactly (provided the body does not start with `json`, which
would read as a `"```json"` fence); for a `"```json"` fence it
recovers the body exactly provided the stripped remainder does not
start with another `"```"`. -/
theorem fence_strip_amended (body : String) :
    (("json".data.isPrefixOf body.data) = false →
      cleanupFences ("```" ++ body ++ "```") = body) ∧
    (("```".data.isPrefixOf (body.data ++ "```".data)) = false →
      cleanupFences ("```json" ++ body ++ "```") = body) := by
  have hdata3 : ("```" ++ body ++ "```").data
      = '\x60' :: '\x60' :: '\x60' :: (body.data ++ ['\x60', '\x60', '\x60']) := by
    rw [String.data_append, String.data_append]
    simp
  have hdata7 : ("```json" ++ body ++ "```").data
      = '\x60' :: '\x60' :: '\x60' :: 'j' :: 's' :: 'o' :: 'n'
          :: (body.data ++ ['\x60', '\x60', '\x60']) := by
    rw [String.data_append, String.data_append]
    simp
  have hends : pyEndswith (body ++ "```") "```" = true := by
    unfold pyEndswith
    rw [String.data_append]
    rw [show ("```" : String).data = ['\x60', '\x60', '\x60'] from rfl]
    rw [List.reverse_append]
    simp [List.isPrefixOf]
  have hdropr : pyDropRight (body ++ "```") 3 = body := by
    apply strDataExt
    show ((body ++ "```").data.reverse.drop 3).reverse = body.data
    rw [String.data_append]
    rw [show ("```" : String).data = ['\x60', '\x60', '\x60'] from rfl]
    rw [List.reverse_append]
    simp
  constructor
  · intro hjson
    have hstrip : pyStrip ("```" ++ body ++ "```") = "```" ++ body ++ "```" := by
      apply strDataExt
      show stripWsList ("```" ++ body ++ "```").data = ("```" ++ body ++ "```").data
      rw [hdata3]
      exact stripWs_wrap ('\x60' :: '\x60' :: body.data)
    have c1 : pyStartswith ("```" ++ body ++ "```") "```json" = false := by
      unfold pyStartswith
      rw [hdata3]
      rw [show ("```json" : String).data
        = ['\x60', '\x60', '\x60', 'j', 's', 'o', 'n'] from rfl]
      rw [backticks_json_cancel]
      cases hb : ['j', 's', 'o', 'n'].isPrefixOf (body.data ++ ['\x60', '\x60', '\x60']) with
      | false => rfl
      | true =>
        have h4 := json_prefix_append body.data hb
        have hj : ['j', 's', 'o', 'n'].isPrefixOf body.data = false := hjson
        rw [hj] at h4
        exact absurd h4 (by decide)
    have c2 : pyStartswith ("```" ++ body ++ "```") "```" = true := by
      unfold pyStartswith
      rw [hdata3]
      simp [List.isPrefixOf]
    have hdrop : pyDropLeft ("```" ++ body ++ "```") 3 = body ++ "```" := by
      apply strDataExt
      show ("```" ++ body ++ "```").data.drop 3 = (body ++ "```").data
      rw [hdata3, String.data_append]
      rfl
    simp only [cleanupFences, hstrip, c1, Bool.false_eq_true, if_false, c2, if_true,
      hdrop, hends, hdropr]
  · intro hticks
    have hstrip : pyStrip ("```json" ++ body ++ "```") = "```json" ++ body ++ "```" := by
      apply strDataExt
      show stripWsList ("```json" ++ body ++ "```").data = ("```json" ++ body ++ "```").data
      rw [hdata7]
      exact stripWs_wrap ('\x60' :: '\x60' :: 'j' :: 's' :: 'o' :: 'n' :: body.data)
    have c1 : pyStartswith ("```json" ++ body ++ "```") "```json" = true := by
      unfold pyStartswith
      rw [hdata7]
      rw [show ("```json" : String).data
        = ['\x60', '\x60', '\x60', 'j', 's', 'o', 'n'] from rfl]
      simp [List.isPrefixOf]
    have hdrop : pyDropLeft ("```json" ++ body ++ "```") 7 = body ++ "```" := by
      apply strDataExt
      show ("```json" ++ body ++ "```").data.drop 7 = (body ++ "```").data
      rw [hdata7, String.data_append]
      rfl
    have c2 : pyStartswith (body ++ "```") "```" = false := by
      unfold pyStartswith
      rw [String.data_append]
      exact hticks
    simp only [cleanupFences, hstrip, c1, if_true, hdrop, c2, Bool.false_eq_true, if_false,
      hends, hdropr]

/-- Witness for the amended C6 on both fence shapes. -/
theorem fence_strip_amended_witness :
    ("json".data.isPrefixOf ("xyz" : String).data) = false ∧
    cleanupFences "```xyz```" = "xyz" ∧
    ("```".data.isPrefixOf (("\x7b\"a\": 1\x7d" : String).data ++ "```".data)) = false ∧
    cleanupFences "```json\x7b\"a\": 1\x7d```" = "\x7b\"a\": 1\x7d" :=
  ⟨by decide, (fence_strip_amended "xyz").1 (by decide),
   by decide, (fence_strip_amended "\x7b\"a\": 1\x7d").2 (by decide)⟩
